import Mathlib

/-!
Verification of the ISUP/ISAPI access-control event bridge.

The Python sources are shallowly embedded: byte strings become `List Nat`
(each element a byte value), Python `str` values become Lean `String`
(or byte lists in the webhook component, where the code moves between
`bytes` and `str` by UTF-8 decoding whose content is never inspected),
fallible operations return `Option`/`Except`, and network / clock /
filesystem effects become explicit oracle parameters and operation traces.
-/

namespace Py

/-- Byte strings (`bytes` in the source): lists of byte values. -/
abbrev Bytes := List Nat

/-- Python slicing `d[a:b]` (for `a ≤ b`; clamps at the end like Python). -/
def sliceB (d : Bytes) (a b : Nat) : Bytes := (d.drop a).take (b - a)

/-- `struct.pack(">H", n)` for `n < 2^16`. -/
def pack16 (n : Nat) : Bytes := [n / 256 % 256, n % 256]

/-- `struct.pack(">I", n)` for `n < 2^32`. -/
def pack32 (n : Nat) : Bytes :=
  [n / 16777216 % 256, n / 65536 % 256, n / 256 % 256, n % 256]

/-- Big-endian value of a byte string (used after an exact-length check,
mirroring `struct.unpack`). -/
def unpackBE (s : Bytes) : Nat := s.foldl (fun a b => a * 256 + b) 0

/-- Exceptions that the embedded Python operations can raise. -/
inductive PyErr
  | indexError
  | structError
  deriving DecidableEq

/-- `struct.unpack(">H", s)[0]`: requires exactly two bytes. -/
def unpack16E (s : Bytes) : Except PyErr Nat :=
  if s.length = 2 then .ok (unpackBE s) else .error .structError

/-- `struct.unpack(">I", s)[0]`: requires exactly four bytes. -/
def unpack32E (s : Bytes) : Except PyErr Nat :=
  if s.length = 4 then .ok (unpackBE s) else .error .structError

/-- Python indexing `d[i]` for non-negative `i`: raises `IndexError` out of range. -/
def idxE (d : Bytes) (i : Nat) : Except PyErr Nat :=
  if i < d.length then .ok (d.getD i 0) else .error .indexError

/-- Uppercase hex digit of a value below 16 (`0-9A-F`). -/
def hexDigitU (n : Nat) : Char :=
  if n < 10 then Char.ofNat (48 + n) else Char.ofNat (55 + n)

/-- Lowercase hex digit of a value below 16 (`0-9a-f`). -/
def hexDigitL (n : Nat) : Char :=
  if n < 10 then Char.ofNat (48 + n) else Char.ofNat (87 + n)

/-- `bytes.hex().upper()`: two uppercase hex digits per byte. -/
def hexUpper (bs : Bytes) : String :=
  String.mk ((bs.map fun b => [hexDigitU (b / 16 % 16), hexDigitU (b % 16)]).flatten)

/-- `bytes.hex()`: two lowercase hex digits per byte. -/
def hexLower (bs : Bytes) : String :=
  String.mk ((bs.map fun b => [hexDigitL (b / 16 % 16), hexDigitL (b % 16)]).flatten)

/-- `b.decode("ascii", errors="ignore")`: non-ASCII bytes are dropped. -/
def decodeAsciiIgnore (bs : Bytes) : String :=
  String.mk ((bs.filter (· < 128)).map Char.ofNat)

/-- `s.strip("\x00")`: remove NUL characters from both ends. -/
def stripNul (s : String) : String :=
  String.mk (((s.data.dropWhile (· = Char.ofNat 0)).reverse.dropWhile (· = Char.ofNat 0)).reverse)

end Py

namespace ISUP

open Py

/-- One round of the inner `for _ in range(8)` loop of `_crc16`:
`n` remaining shift steps applied to `crc`. -/
def crcShift : Nat → Nat → Nat
  | 0, crc => crc
  | n + 1, crc =>
      crcShift n (if crc &&& 1 = 1 then (crc >>> 1) ^^^ 0xA001 else crc >>> 1)

/-- `ISUPv5Parser._crc16` (identical in `src/isup_protocol.py` and
`src/isup/isup_protocol.py`): CRC-16/IBM, poly 0xA001 reflected, init 0xFFFF. -/
def crc16 (data : Bytes) : Nat :=
  (data.foldl (fun crc b => crcShift 8 (crc ^^^ b)) 0xFFFF) &&& 0xFFFF

/-- `ISUPHeader` dataclass (the constant `marker = b"##"` field is omitted:
it is only ever written with that constant value). -/
structure ISUPHeader where
  version : Nat
  command_type : Nat
  data_length : Nat
  device_id : String
  sequence_number : Nat
  checksum : Nat
  deriving DecidableEq

/-- Result of `ISUPv5Parser._parse_timestamp`: either a valid
`datetime(2000+yy, mm, dd, hh, mi, ss)` or the `datetime.now()` fallback
taken when the constructor raises (or unpacking the 6 bytes fails). -/
inductive ISUPTimestamp
  | valid (year month day hour minute second : Nat)
  | now
  deriving DecidableEq

/-- Gregorian leap year, as used by Python `datetime`. -/
def isLeap (y : Nat) : Bool := y % 4 = 0 ∧ (y % 100 ≠ 0 ∨ y % 400 = 0)

/-- Days in a month, as validated by Python `datetime`. -/
def daysInMonth (y m : Nat) : Nat :=
  if m = 2 then (if isLeap y then 29 else 28)
  else if m = 4 ∨ m = 6 ∨ m = 9 ∨ m = 11 then 30
  else 31

/-- Python `datetime(y, mo, d, h, mi, s)` succeeds iff these bounds hold. -/
def validDatetime (y mo d h mi s : Nat) : Bool :=
  1 ≤ y ∧ y ≤ 9999 ∧ 1 ≤ mo ∧ mo ≤ 12 ∧ 1 ≤ d ∧ d ≤ daysInMonth y mo ∧
    h ≤ 23 ∧ mi ≤ 59 ∧ s ≤ 59

/-- `ISUPv5Parser._parse_timestamp`: two-digit year mapped to `2000+yy`;
any failure (wrong length, invalid field) falls back to `datetime.now()`. -/
def parse_timestamp (b : Bytes) : ISUPTimestamp :=
  match b with
  | [yy, mm, dd, hh, mi, ss] =>
      if validDatetime (2000 + yy) mm dd hh mi ss then
        .valid (2000 + yy) mm dd hh mi ss
      else .now
  | _ => .now

/-- `ISUPAccessType` enum. -/
inductive ISUPAccessType
  | CARD | FINGERPRINT | FACE | PIN_CODE | QR_CODE | COMBINED | UNKNOWN
  deriving DecidableEq

/-- `ISUPDirection` enum. -/
inductive ISUPDirection
  | IN | OUT | UNKNOWN
  deriving DecidableEq

/-- `ISUPDirection.name` as used by `_unify_isup_event`. -/
def ISUPDirection.name : ISUPDirection → String
  | .IN => "IN"
  | .OUT => "OUT"
  | .UNKNOWN => "UNKNOWN"

/-- `ISUPv5Parser._map_access_type` of `src/isup_protocol.py`
(maps 1..6, everything else to UNKNOWN). -/
def map_access_type (v : Nat) : ISUPAccessType :=
  if v = 1 then .CARD else if v = 2 then .FINGERPRINT else if v = 3 then .FACE
  else if v = 4 then .PIN_CODE else if v = 5 then .QR_CODE
  else if v = 6 then .COMBINED else .UNKNOWN

/-- `ISUPv5Parser._map_direction` (identical in both files). -/
def map_direction (v : Nat) : ISUPDirection :=
  if v = 1 then .IN else if v = 2 then .OUT else .UNKNOWN

/-- `ISUPAccessEvent` dataclass.  `user_id` is stored as `str(user_id)`
in the source; the decimal rendering is kept. -/
structure ISUPAccessEvent where
  header : ISUPHeader
  card_number : String
  access_type : ISUPAccessType
  direction : ISUPDirection
  timestamp : ISUPTimestamp
  door_number : Nat
  reader_number : Nat
  user_id : String
  verify_result : Nat
  raw_packet : Bytes
  deriving DecidableEq

/-- `ISUPv5Parser._parse_header` of `src/isup_protocol.py`, before the
surrounding `try/except` absorbs exceptions into `None`.  The five
fallible operations run in source order; the first raised exception
propagates (the match cascade returns the first error). -/
def parse_headerE (d : Bytes) : Except PyErr (Option ISUPHeader) :=
  if sliceB d 0 2 ≠ [35, 35] then .ok none
  else
    match idxE d 2, idxE d 3, unpack16E (sliceB d 4 6),
        unpack32E (sliceB d 22 26), unpack16E (sliceB d 26 28) with
    | .ok version, .ok command, .ok data_len, .ok sequence, .ok checksum =>
        .ok (some ⟨version, command, data_len,
          stripNul (decodeAsciiIgnore (sliceB d 6 22)), sequence, checksum⟩)
    | .error e, _, _, _, _ => .error e
    | _, .error e, _, _, _ => .error e
    | _, _, .error e, _, _ => .error e
    | _, _, _, .error e, _ => .error e
    | _, _, _, _, .error e => .error e

/-- `ISUPv5Parser._parse_header`: the `try/except` returns `None` on
any exception. -/
def parse_header (d : Bytes) : Option ISUPHeader :=
  match parse_headerE d with
  | .ok r => r
  | .error _ => none

/-- `ISUPv5Parser._parse_access_event` of `src/isup_protocol.py`.  With the
`len(d) < 26` guard in place none of the remaining operations can raise
(all indices read are below 26 and `d[4:8]` has exactly four bytes, and
`_parse_timestamp` absorbs its own exceptions), so the surrounding
`try/except` is inert and the body is total. -/
def parse_access_event (header : ISUPHeader) (d : Bytes) (raw : Bytes) :
    Option ISUPAccessEvent :=
  if d.length < 26 then none
  else some
    { header := header
      card_number := hexUpper (sliceB d 8 16)
      access_type := map_access_type (d.getD 2 0)
      direction := map_direction (d.getD 3 0)
      timestamp := parse_timestamp (sliceB d 16 22)
      door_number := d.getD 22 0
      reader_number := d.getD 23 0
      user_id := toString (unpackBE (sliceB d 4 8))
      verify_result := d.getD 24 0
      raw_packet := raw }

/-- `ISUPv5Parser._verify_crc` of `src/isup_protocol.py`, with the
`struct.unpack` on `data[-2:]` kept fallible (it is NOT wrapped in a
`try/except`): CRC over `data[:-2]`, compared with `data[-2:]` big-endian. -/
def verify_crcE (data : Bytes) : Except PyErr Bool :=
  match unpack16E (data.drop (data.length - 2)) with
  | .ok expected => .ok (crc16 (data.take (data.length - 2)) == expected)
  | .error e => .error e

/-- The value `_verify_crc` computes when it does not raise. -/
def verify_crc (data : Bytes) : Bool :=
  crc16 (data.take (data.length - 2)) == unpackBE (data.drop (data.length - 2))

/-- `ISUPv5Parser.parse` of `src/isup_protocol.py` with exceptions made
explicit: the only operation whose exceptions are not absorbed by an
enclosing `try/except` is `_verify_crc`. -/
def parseE (strict : Bool) (packet : Bytes) : Except PyErr (Option ISUPAccessEvent) :=
  if packet.length < 28 then .ok none
  else
    match parse_header packet with
    | none => .ok none
    | some header =>
      match verify_crcE packet with
      | .error e => .error e
      | .ok crcOk =>
        if ¬crcOk ∧ strict then .ok none
        else .ok (parse_access_event header
          (sliceB packet 28 (28 + header.data_length)) packet)

/-- `ISUPv5Parser.parse` of `src/isup_protocol.py`: the value it returns
whenever it does not raise. -/
def parse (strict : Bool) (packet : Bytes) : Option ISUPAccessEvent :=
  if packet.length < 28 then none
  else
    match parse_header packet with
    | none => none
    | some header =>
      if ¬verify_crc packet ∧ strict then none
      else parse_access_event header
        (sliceB packet 28 (28 + header.data_length)) packet

end ISUP

/-!
`src/isup/isup_protocol.py` is a second draft of the same parser.  Its
`ISUPHeader` / `ISUPAccessEvent` dataclasses, `_crc16`, `_parse_header`,
`_parse_timestamp` and `_map_direction` are textually identical to
`src/isup_protocol.py`, so those embeddings are reused.  It differs in
`_map_access_type` (only 1..3 are mapped), `_verify_crc` (always returns
`True`: "CRC16/IBM logic should live here; simplified for brevity") and
in having the ACK builders `make_ack` / `make_heartbeat_ack`. -/

namespace ISUP2

open Py

/-- `ISUPv5Parser._map_access_type` of `src/isup/isup_protocol.py`:
only CARD / FINGERPRINT / FACE are mapped, everything else is UNKNOWN. -/
def map_access_type (v : Nat) : ISUP.ISUPAccessType :=
  if v = 1 then .CARD else if v = 2 then .FINGERPRINT
  else if v = 3 then .FACE else .UNKNOWN

/-- `ISUPv5Parser._verify_crc` of `src/isup/isup_protocol.py`: returns
`True` unconditionally. -/
def verify_crc (_data : Bytes) : Bool := true

/-- `ISUPv5Parser._parse_access_event` of `src/isup/isup_protocol.py`
(same guard and offsets as the other draft, different access-type map). -/
def parse_access_event (header : ISUP.ISUPHeader) (d : Bytes) (raw : Bytes) :
    Option ISUP.ISUPAccessEvent :=
  if d.length < 26 then none
  else some
    { header := header
      card_number := hexUpper (sliceB d 8 16)
      access_type := map_access_type (d.getD 2 0)
      direction := ISUP.map_direction (d.getD 3 0)
      timestamp := ISUP.parse_timestamp (sliceB d 16 22)
      door_number := d.getD 22 0
      reader_number := d.getD 23 0
      user_id := toString (unpackBE (sliceB d 4 8))
      verify_result := d.getD 24 0
      raw_packet := raw }

/-- `ISUPv5Parser.parse` of `src/isup/isup_protocol.py`. -/
def parse (strict : Bool) (packet : Bytes) : Option ISUP.ISUPAccessEvent :=
  if packet.length < 28 then none
  else
    match ISUP.parse_header packet with
    | none => none
    | some header =>
      if ¬verify_crc packet ∧ strict then none
      else parse_access_event header
        (sliceB packet 28 (28 + header.data_length)) packet

/-- `ISUPv5Parser.make_ack` of `src/isup/isup_protocol.py`:
`header = b"##" + bytes([0x01, 0x20]) + pack(">H", 2)`,
`body = b"OK" + pack(">I", seq)`, `return header + body + crc16 BE`.
`struct.pack(">I", seq)` raises for `seq ≥ 2^32`; the `except` returns
`b""` in that case. -/
def make_ack (sequence_number : Nat) : Bytes :=
  if sequence_number < 4294967296 then
    let header := [35, 35, 1, 32] ++ pack16 2
    let body := [79, 75] ++ pack32 sequence_number
    header ++ body ++ pack16 (ISUP.crc16 (header ++ body))
  else []

/-- `ISUPv5Parser.make_heartbeat_ack` of `src/isup/isup_protocol.py`:
`header = b"##" + bytes([0x01, 0x20]) + pack(">H", 0)`, then the CRC of
the header appended big-endian. -/
def make_heartbeat_ack : Bytes :=
  let header := [35, 35, 1, 32] ++ pack16 0
  header ++ pack16 (ISUP.crc16 header)

end ISUP2

namespace Core

open Py

/-- `Tenant` of `src/tenant_manager.py`: `name` plus the 1C configuration
taken from its params (`api_url`, `api_token`).  The raw `params` dict and
the (never consulted) employee cache are omitted. -/
structure Tenant where
  name : String
  api_url : Option String
  api_token : Option String
  deriving DecidableEq

/-- `TenantManager` state after `_load`: tenants by name, and the
MAC → tenant-name index whose keys were upper-cased at load time. -/
structure TenantManager where
  tenants : List (String × Tenant)
  devices_by_mac : List (String × String)
  deriving DecidableEq

/-- Python truthiness of an optional string (`if not mac: ...`):
false for `None` and for the empty string. -/
def truthy : Option String → Bool
  | none => false
  | some s => s ≠ ""

/-- `mac.upper()` on the ASCII strings it is applied to (MAC addresses,
device ids). -/
def pyUpper (s : String) : String :=
  String.mk (s.data.map fun c =>
    if 97 ≤ c.toNat ∧ c.toNat ≤ 122 then Char.ofNat (c.toNat - 32) else c)

/-- `TenantManager.find_tenant_by_mac`. -/
def find_tenant_by_mac (tm : TenantManager) (mac : Option String) : Option Tenant :=
  match mac with
  | none => none
  | some m =>
      if m = "" then none
      else
        match tm.devices_by_mac.lookup (pyUpper m) with
        | none => none
        | some nm => tm.tenants.lookup nm

/-- `TenantManager.get_tenant`. -/
def get_tenant (tm : TenantManager) (nm : String) : Option Tenant :=
  tm.tenants.lookup nm

/-- Outcome of one `aiohttp` POST: an HTTP status code, or an exception
(network error, timeout, ...). -/
inductive HttpOutcome
  | status (code : Nat)
  | exn
  deriving DecidableEq

/-- `TenantManager.send_to_1c`.  `http n` is the outcome the `n`-th POST
to the tenant's URL would have; the second component counts the POSTs the
function actually performs.  The body contains exactly one
`session.post`, whose outcome alone decides the result: `True` iff the
status is 200, 201 or 204; any exception is caught and yields `False`;
a missing/empty `api_url` returns `False` without any request. -/
def send_to_1c (t : Tenant) (http : Nat → HttpOutcome) : Bool × Nat :=
  if ¬truthy t.api_url then (false, 0)
  else
    match http 0 with
    | .status c => (decide (c = 200 ∨ c = 201 ∨ c = 204), 1)
    | .exn => (false, 1)

/-- The event dictionary fields read or written by the processing
pipeline.  Unset keys are `none`; `extra` stands for any other
key/value pairs, which the pipeline never touches. -/
structure Ev where
  event_source : Option String := none
  client_ip : Option String := none
  timestamp : Option String := none
  mac_address : Option String := none
  device_id : Option String := none
  tenant : Option String := none
  card_number : Option String := none
  employee_number : Option String := none
  direction : Option String := none
  success : Option Bool := none
  door_id : Option Nat := none
  reader_id : Option Nat := none
  raw_binary : Option String := none
  extra : List (String × String) := []
  deriving DecidableEq

/-- `normalize_ts` of `src/core/processor.py`: a falsy value becomes
`datetime.now().isoformat()` (the `now` parameter); otherwise the value
is returned unchanged. -/
def normalize_ts (value : Option String) (now : String) : String :=
  match value with
  | none => now
  | some s => if s = "" then now else s

/-- `TenantManager.enrich_event`: sets `event["tenant"]`. -/
def enrich_event (t : Tenant) (event : Ev) : Ev :=
  { event with tenant := some t.name }

/-- `EventProcessor.process_isapi_event` of `src/core/processor.py`.
The pending store is modelled as the list of events handed to
`storage.save_pending`; `now` is the ingestion clock value; metric
counter increments are not modelled.  Returns the boolean result and the
store after the call. -/
def process_isapi_event (tm : TenantManager) (store : List Ev) (event : Ev)
    (client_ip now : String) (http : Nat → HttpOutcome) : Bool × List Ev :=
  let ev1 := { event with
    event_source := some "ISAPI"
    client_ip := some client_ip
    timestamp := some (normalize_ts event.timestamp now) }
  match find_tenant_by_mac tm ev1.mac_address with
  | none => (false, store)
  | some t =>
      let ev2 := enrich_event t ev1
      if (send_to_1c t http).1 then (true, store)
      else (false, store ++ [ev2])

/-- Zero-padded two-digit rendering used by `datetime.isoformat`. -/
def pad2 (n : Nat) : String :=
  if n < 10 then "0" ++ toString n else toString n

/-- Zero-padded four-digit rendering used by `datetime.isoformat`. -/
def pad4 (n : Nat) : String :=
  if n < 10 then "000" ++ toString n
  else if n < 100 then "00" ++ toString n
  else if n < 1000 then "0" ++ toString n
  else toString n

/-- `event.timestamp.isoformat()`: for the `datetime.now()` fallback the
ingestion clock's ISO rendering (`nowIso`) is produced. -/
def isoformat : ISUP.ISUPTimestamp → String → String
  | .valid y mo d h mi s, _ =>
      pad4 y ++ "-" ++ pad2 mo ++ "-" ++ pad2 d ++ "T" ++
        pad2 h ++ ":" ++ pad2 mi ++ ":" ++ pad2 s
  | .now, nowIso => nowIso

/-- `EventProcessor._unify_isup_event`. -/
def unify_isup_event (e : ISUP.ISUPAccessEvent) (client_ip nowIso : String) : Ev :=
  { event_source := some "ISUP"
    device_id := some e.header.device_id
    timestamp := some (isoformat e.timestamp nowIso)
    card_number := some e.card_number
    employee_number := some e.user_id
    direction := some e.direction.name
    success := some (decide (e.verify_result = 1))
    raw_binary := some (hexLower e.raw_packet)
    door_id := some e.door_number
    reader_id := some e.reader_number
    client_ip := some client_ip }

/-- `EventProcessor.process_isup_packet` of `src/core/processor.py`.
The injected `isup_parser` is `ISUPv5Parser()` with its default
`strict_mode=True`. -/
def process_isup_packet (tm : TenantManager) (store : List Ev) (packet : Bytes)
    (client_ip nowIso : String) (http : Nat → HttpOutcome) : Bool × List Ev :=
  match ISUP.parse true packet with
  | none => (false, store)
  | some e =>
      let unified := unify_isup_event e client_ip nowIso
      match find_tenant_by_mac tm unified.device_id with
      | none => (false, store)
      | some t =>
          let u2 := enrich_event t unified
          if (send_to_1c t http).1 then (true, store)
          else (false, store ++ [u2])

end Core

namespace Storage

/-- Filesystem operations performed by the pending store, in order. -/
inductive FsOp
  | openTrunc (path : String)
  | writeOut (path : String)
  | fsyncFile (path : String)
  | renameFile (src dst : String)
  deriving DecidableEq

/-- The on-disk record written by `EventStorage.save_pending`: the event
dict after `event["_pending_id"]` and `event["saved_at"]` are set. -/
structure PendingRecord where
  event : Core.Ev
  pending_id : String
  saved_at : String
  deriving DecidableEq

/-- `EventStorage.save_pending` of `src/storage.py`: sets `_pending_id`
(a fresh UUID) and `saved_at` (`datetime.now().isoformat()`, the `now`
parameter), then opens `<uuid>.json` for writing and dumps the JSON
directly into it.  Returns the filesystem trace and the record written. -/
def save_pending (event : Core.Ev) (uuid now : String) :
    List FsOp × PendingRecord :=
  ([.openTrunc (uuid ++ ".json"), .writeOut (uuid ++ ".json")],
    ⟨event, uuid, now⟩)

/-- `EventStorage.save_event` of `src/core/storage.py`: opens
`pending_<tenant>_<epoch>.json` and dumps the event JSON directly into
it; no `saved_at` (or any other) field is added to the record. -/
def save_event (event : Core.Ev) (tenant_id : String) (epoch : Nat) :
    List FsOp × Core.Ev :=
  let filename := "pending_" ++ tenant_id ++ "_" ++ toString epoch ++ ".json"
  ([.openTrunc filename, .writeOut filename], event)

/-- Is the operation an fsync? -/
def isFsync : FsOp → Bool
  | .fsyncFile _ => true
  | _ => false

/-- Is the operation a rename? -/
def isRename : FsOp → Bool
  | .renameFile _ _ => true
  | _ => false

/-- The save mechanism claimed by the spec (for comparison with the
code): some file is written and fsynced, and some file is renamed onto
the final path. -/
def atomicSaveClaim (ops : List FsOp) (finalPath : String) : Bool :=
  ops.any isFsync &&
    ops.any fun op =>
      match op with
      | .renameFile _ dst => dst = finalPath
      | _ => false

end Storage

namespace Webhook

open Py

/-- Text in the webhook component is kept as raw byte lists.  The source
converts between `bytes` and `str` with UTF-8 `errors="replace"` decoding
and only ever inspects the result through the byte-level operations
modelled below, so the decoding step is the identity here.  Header values
arriving from aiohttp as `str` are embedded the same way. -/
abbrev BStr := Py.Bytes

/-- ASCII string literal as a byte list. -/
def lit (s : String) : BStr := s.data.map Char.toNat

/-- Python whitespace bytes (`strip()` with no argument on ASCII data). -/
def isSpaceByte (b : Nat) : Bool :=
  b = 32 ∨ b = 9 ∨ b = 10 ∨ b = 13 ∨ b = 11 ∨ b = 12

/-- `s.strip()`. -/
def stripWs (s : BStr) : BStr :=
  ((s.dropWhile isSpaceByte).reverse.dropWhile isSpaceByte).reverse

/-- `s.lstrip()`. -/
def stripWsLeft (s : BStr) : BStr := s.dropWhile isSpaceByte

/-- ASCII `s.lower()`. -/
def lowerB (s : BStr) : BStr :=
  s.map fun b => if 65 ≤ b ∧ b ≤ 90 then b + 32 else b

/-- `s.strip('"')`. -/
def stripQuotes (s : BStr) : BStr :=
  ((s.dropWhile (· = 34)).reverse.dropWhile (· = 34)).reverse

/-- `s.startswith(pre)`. -/
def startsWithB (s pre : BStr) : Bool := s.take pre.length == pre

/-- `s.endswith(suf)`. -/
def endsWithB (s suf : BStr) : Bool := s.drop (s.length - suf.length) == suf

/-- `hay.find(needle)`: index of the first occurrence, `none` if absent. -/
def findSub (needle : BStr) : BStr → Option Nat
  | [] => if needle = [] then some 0 else none
  | b :: t =>
      if (b :: t).take needle.length == needle then some 0
      else (findSub needle t).map (· + 1)

/-- `needle in hay`. -/
def containsSub (needle hay : BStr) : Bool := (findSub needle hay).isSome

/-- Left-to-right scan of `bytes.split(sep)`: at each occurrence of a
non-empty `sep`, cut and continue after it.  Structurally recursive on a
fuel argument so that it evaluates by kernel reduction; one cut consumes
at least one byte, so `s.length + 1` fuel (supplied by `splitOnSub`)
always suffices. -/
def splitOnSubFuel (sep : BStr) : Nat → BStr → List BStr
  | 0, s => [s]
  | fuel + 1, s =>
      match findSub sep s with
      | none => [s]
      | some i =>
          if sep = [] then [s]
          else s.take i :: splitOnSubFuel sep fuel (s.drop (i + sep.length))

/-- `bytes.split(sep)` (the source never calls it with an empty
separator). -/
def splitOnSub (sep s : BStr) : List BStr := splitOnSubFuel sep (s.length + 1) s

/-- `s.replace(old, new)`. -/
def replaceSub (old new s : BStr) : BStr :=
  List.intercalate new (splitOnSub old s)

/-- `s.split(sep, 1)` for a one-byte separator, as used behind the
`if sep in s` membership guards: `none` when the byte is absent. -/
def splitOnce (sep : Nat) (s : BStr) : Option (BStr × BStr) :=
  match findSub [sep] s with
  | none => none
  | some i => some (s.take i, s.drop (i + 1))

/-- Python dict assignment on an association list: replace in place or
append (insertion order preserved, at most one entry per key). -/
def dictInsert {α β : Type} [BEq α] (k : α) (v : β) : List (α × β) → List (α × β)
  | [] => [(k, v)]
  | (k', v') :: t => if k' == k then (k, v) :: t else (k', v') :: dictInsert k v t

/-- `_parse_content_type_header`: `(mime, params)` with lowercased mime,
lowercased parameter keys and quote-stripped values. -/
def parse_content_type_header (value : BStr) : BStr × List (BStr × BStr) :=
  if value = [] then ([], [])
  else
    let parts := ((splitOnSub [59] value).map stripWs).filter (· ≠ [])
    let mime := lowerB (parts.headD [])
    let params := parts.tail.foldl (fun m p =>
      match splitOnce 61 p with
      | none => m
      | some (k, v) => dictInsert (lowerB (stripWs k)) (stripQuotes (stripWs v)) m) []
    (mime, params)

/-- `_parse_content_disposition`: parameters of the disposition value,
keys lowercased, values quote-stripped (the leading token is skipped). -/
def parse_content_disposition (value : BStr) : List (BStr × BStr) :=
  if value = [] then []
  else
    let parts := ((splitOnSub [59] value).map stripWs).filter (· ≠ [])
    parts.tail.foldl (fun m p =>
      match splitOnce 61 p with
      | none => m
      | some (k, v) => dictInsert (lowerB (stripWs k)) (stripQuotes (stripWs v)) m) []

/-- `_strip_leading_noise`: drop leading control bytes
(`\x00`-`\x0f`, space, tab, CR, LF), then an optional UTF-8 BOM followed
by `lstrip()`. -/
def strip_leading_noise (data : BStr) : BStr :=
  if data = [] then []
  else
    let s := data.dropWhile fun b => b ≤ 15 ∨ b = 32
    if s.take 3 = [239, 187, 191] then stripWsLeft (s.drop 3) else s

/-- `_looks_like_xml`. -/
def looks_like_xml (data : BStr) : Bool :=
  if data = [] then false
  else
    let s := strip_leading_noise data
    if s = [] then false
    else
      startsWithB s (lit "<?xml") || startsWithB s (lit "<EventNotificationAlert") ||
        containsSub (lit "<EventNotificationAlert") (s.take 8192) ||
        (startsWithB s (lit "<") && containsSub (lit "</") (s.take 8192))

/-- `_guess_filename`: `filename` param if truthy, else `name`, else the
fallback. -/
def guess_filename (cdp : List (BStr × BStr)) (fallback : BStr) : BStr :=
  let f := (cdp.lookup (lit "filename")).getD []
  if f ≠ [] then f
  else
    let n := (cdp.lookup (lit "name")).getD []
    if n ≠ [] then n else fallback

/-- Header lines of one multipart chunk:
`header_blob.replace(b"\r\n", b"\n").split(b"\n")`, keeping only lines
with a colon, keys lowercased and stripped, values stripped. -/
def parse_header_lines (blob : BStr) : List (BStr × BStr) :=
  (splitOnSub [10] (replaceSub [13, 10] [10] blob)).foldl (fun m line =>
    match splitOnce 58 line with
    | none => m
    | some (k, v) => dictInsert (lowerB (stripWs k)) (stripWs v) m) []

/-- One iteration of the chunk loop of `_robust_parse_multipart_formdata`:
`none` models `continue`. -/
def parse_one_chunk (chunk : BStr) : Option (List (BStr × BStr) × BStr) :=
  if chunk = [] then none
  else if startsWithB chunk (lit "--") then none
  else
    let c :=
      if startsWithB chunk [13, 10] then chunk.drop 2
      else if startsWithB chunk [10] then chunk.drop 1
      else chunk
    let sep :=
      match findSub [13, 10, 13, 10] c with
      | some i => some (i, 4)
      | none =>
        match findSub [10, 10] c with
        | some i => some (i, 2)
        | none => none
    match sep with
    | none => none
    | some (i, sepLen) =>
        let headerBlob := c.take i
        let payload0 := c.drop (i + sepLen)
        let payload :=
          if endsWithB payload0 [13, 10] then payload0.take (payload0.length - 2)
          else if endsWithB payload0 [10] then payload0.take (payload0.length - 1)
          else payload0
        some (parse_header_lines headerBlob, payload)

/-- `_robust_parse_multipart_formdata`. -/
def robust_parse_multipart_formdata (body boundary : BStr) :
    List (List (BStr × BStr) × BStr) :=
  if boundary = [] ∨ body = [] then []
  else
    let delim := lit "--" ++ boundary
    let parts := (splitOnSub delim body).filterMap parse_one_chunk
    parts.filter fun hp => hp.2 ≠ [] ∧ stripWs hp.2 ≠ []

/-- `_extract_xml_from_raw_body`: NUL bytes removed, then the first
`<EventNotificationAlert ... </EventNotificationAlert>` span. -/
def extract_xml_from_raw_body (body : BStr) : Option BStr :=
  if body = [] then none
  else
    let scan := body.filter (· ≠ 0)
    match findSub (lit "<EventNotificationAlert") scan with
    | none => none
    | some start =>
        match findSub (lit "</EventNotificationAlert>") (scan.drop start) with
        | none => none
        | some j => some (sliceB scan start (start + j + 25))

/-- `_LastEventCacheItem`: cached XML plus the `time.time()` stamp
(seconds, as a natural number). -/
structure CacheItem where
  xml : BStr
  ts : Nat
  deriving DecidableEq

/-- `_LastEventCache._items`. -/
abbrev Cache := List (String × CacheItem)

/-- `_LastEventCache.set`. -/
def cache_set (c : Cache) (client_ip : String) (xml : BStr) (now : Nat) : Cache :=
  dictInsert client_ip ⟨xml, now⟩ c

/-- `_LastEventCache.get`: expired entries (strictly older than the TTL)
are popped and yield `None`. -/
def cache_get (c : Cache) (client_ip : String) (now ttl : Nat) :
    Option BStr × Cache :=
  match c.lookup client_ip with
  | none => (none, c)
  | some item =>
      if now - item.ts > ttl then (none, c.eraseP (fun kv => kv.1 == client_ip))
      else (some item.xml, c)

/-- `ISAPIWebhookHandler` configuration (the XML parser and processor are
oracle parameters of `handle`). -/
structure Handler where
  secret_token : Option String
  cache_ttl_seconds : Nat
  deriving DecidableEq

/-- An inbound POST request as seen by `handle`. -/
structure Request where
  remote : Option String
  content_type : BStr
  secret_header : Option String
  body : BStr
  deriving DecidableEq

/-- Accumulated images: filename → payload, Python-dict semantics. -/
abbrev Images := List (BStr × BStr)

/-- Result of one request: the HTTP status, plus the list of
`_process_event` invocations (XML text and optional images) made while
handling it. -/
structure HResult where
  status : Nat
  attempts : List (BStr × Option Images)
  deriving DecidableEq

/-- `ISAPIWebhookHandler._process_event`, abstracted over the XML parser
(`po xml` = "ISAPIEventParser.parse succeeds") and the processor
(`pr xml` = `none` when `process_isapi_event` raises, otherwise its
boolean result): parse failure → 400 `parse_error`; a processor
exception is caught → 200 `accepted`; otherwise 200
`success`/`accepted`. -/
def process_event (po : BStr → Bool) (pr : BStr → Option Bool) (xml : BStr)
    (images : Option Images) : HResult :=
  if ¬po xml then ⟨400, [(xml, images)]⟩
  else
    match pr xml with
    | none => ⟨200, [(xml, images)]⟩
    | some _ => ⟨200, [(xml, images)]⟩

/-- The classification of one multipart part inside the loop of
`_handle_multipart_bytes`; state = (xml found so far, images so far). -/
def classify_step (st : Option BStr × Images)
    (part : List (BStr × BStr) × BStr) : Option BStr × Images :=
  let headers := part.1
  let payload := part.2
  let ct := lowerB ((headers.lookup (lit "content-type")).getD [])
  let cdp := parse_content_disposition ((headers.lookup (lit "content-disposition")).getD [])
  let part_name := lowerB ((cdp.lookup (lit "name")).getD [])
  let filename := guess_filename cdp (lit "blob.bin")
  let pok := payload ≠ [] ∧ stripWs payload ≠ []
  if (containsSub (lit "xml") ct || ct == lit "text/xml" || ct == lit "application/xml")
      && pok then
    (some payload, st.2)
  else if pok && (containsSub (lit "event") part_name || containsSub (lit "notification") part_name
      || containsSub (lit "alert") part_name || containsSub (lit "metadata") part_name
      || containsSub (lit "xml") part_name) && looks_like_xml payload then
    (some payload, st.2)
  else if pok && looks_like_xml payload then
    (some payload, st.2)
  else if pok && (startsWithB ct (lit "image/")
      || endsWithB (lowerB filename) (lit ".jpg") || endsWithB (lowerB filename) (lit ".jpeg")
      || endsWithB (lowerB filename) (lit ".png") || endsWithB (lowerB filename) (lit ".bmp")) then
    (st.1, dictInsert filename payload st.2)
  else st

/-- The part-classification loop of `_handle_multipart_bytes`. -/
def classify_parts (parts : List (List (BStr × BStr) × BStr)) :
    Option BStr × Images :=
  parts.foldl classify_step (none, [])

/-- `ISAPIWebhookHandler._handle_multipart_bytes`. -/
def handle_multipart_bytes (h : Handler) (cache : Cache) (po : BStr → Bool)
    (pr : BStr → Option Bool) (body boundary : BStr) (client_ip : String)
    (now : Nat) : HResult × Cache :=
  if boundary = [] then
    match (if looks_like_xml body then extract_xml_from_raw_body body else none) with
    | some x => (process_event po pr x none, cache)
    | none => (⟨200, []⟩, cache)
  else
    let parts := robust_parse_multipart_formdata body boundary
    if parts = [] then (⟨200, []⟩, cache)
    else
      let cls := classify_parts parts
      let images := cls.2
      let xml_data :=
        match cls.1 with
        | some x => some x
        | none => extract_xml_from_raw_body body
      match xml_data with
      | some x =>
          (process_event po pr x (if images ≠ [] then some images else none),
            cache_set cache client_ip x now)
      | none =>
          if images ≠ [] then
            match cache_get cache client_ip now h.cache_ttl_seconds with
            | (some last, c') => (process_event po pr last (some images), c')
            | (none, c') => (⟨200, []⟩, c')
          else (⟨200, []⟩, cache)

/-- `ISAPIWebhookHandler.handle`. -/
def handle (h : Handler) (cache : Cache) (po : BStr → Bool)
    (pr : BStr → Option Bool) (req : Request) (now : Nat) : HResult × Cache :=
  let client_ip := req.remote.getD "unknown"
  let mp := parse_content_type_header req.content_type
  let mime := mp.1
  let params := mp.2
  if Core.truthy h.secret_token ∧ req.secret_header ≠ h.secret_token then
    (⟨401, []⟩, cache)
  else if req.body = [] ∨ stripWs req.body = [] then (⟨200, []⟩, cache)
  else if startsWithB mime (lit "multipart/") then
    handle_multipart_bytes h cache po pr req.body
      ((params.lookup (lit "boundary")).getD []) client_ip now
  else if containsSub (lit "xml") mime || looks_like_xml req.body then
    let xml_text := stripWs req.body
    if xml_text = [] then (⟨200, []⟩, cache)
    else (process_event po pr xml_text none, cache)
  else (⟨400, []⟩, cache)

end Webhook

/-!
## Concrete inputs and spec-worded reference definitions used by the claims
-/

/-- The CRC check as §4.A words it: CRC-16 over all header and body bytes
except the 2-byte checksum field at offsets 26-27, compared with that
stored field.  (Written from the spec, for comparison with the code.) -/
def specCrcOk (packet : Py.Bytes) : Bool :=
  ISUP.crc16 (Py.sliceB packet 0 26 ++ packet.drop 28) ==
    Py.unpackBE (Py.sliceB packet 26 28)

/-- The data-carrying ACK as the spec words it: `"##" | 0x01 | 0x20 |
length=6 (BE) | "OK" | seq (BE u32) | CRC16(header|body) (BE)`.
(Written from the spec, for comparison with `make_ack`.) -/
def specAckBytes (seq : Nat) : Py.Bytes :=
  let header := [35, 35, 1, 32] ++ Py.pack16 6
  let body := [79, 75] ++ Py.pack32 seq
  header ++ body ++ Py.pack16 (ISUP.crc16 (header ++ body))

/-- The upstream dispatcher as §4.J words it (written from the spec, for
comparison with `send_to_1c`): up to `fuel` attempts starting at attempt
`i`; 2xx → ok, 4xx → permanent failure without retry, 5xx / exception →
retry; failure once attempts are exhausted.  Backoff delays are not
observable here. -/
def specDispatchAux (http : Nat → Core.HttpOutcome) : Nat → Nat → Bool
  | _, 0 => false
  | i, fuel + 1 =>
      match http i with
      | .status c =>
          if 200 ≤ c ∧ c < 300 then true
          else if 400 ≤ c ∧ c < 500 then false
          else specDispatchAux http (i + 1) fuel
      | .exn => specDispatchAux http (i + 1) fuel

/-- §4.J's contract: up to 3 attempts. -/
def specDispatch (http : Nat → Core.HttpOutcome) : Bool :=
  specDispatchAux http 0 3

/-- First 52 bytes of a frame: `"##"`, version 1, command 5,
data_length 26, an all-NUL device id, sequence 7, a ZERO checksum field,
and the first 24 body bytes. -/
def c5Prefix : Py.Bytes :=
  [35, 35, 1, 5, 0, 26] ++ List.replicate 16 0 ++ [0, 0, 0, 7] ++ [0, 0] ++
    [1, 0, 1, 1, 0, 0, 0, 42, 1, 2, 3, 4, 5, 6, 7, 8, 24, 9, 12, 14, 23, 10, 1, 1]

/-- A 54-byte frame (28-byte header + 26-byte body) whose LAST two bytes
carry the CRC of everything before them, so `_verify_crc` accepts it,
while the header checksum field at offsets 26-27 stays zero. -/
def c5Packet : Py.Bytes := c5Prefix ++ Py.pack16 (ISUP.crc16 c5Prefix)

/-- The same frame with the trailing two bytes zeroed: `_verify_crc`
rejects it. -/
def c5BadPacket : Py.Bytes := c5Prefix ++ [0, 0]

/-- Like `c5Prefix` but with `data_length = 25` and only 23 body bytes
written here (the CRC appended by `c7Packet` supplies body bytes 23-24). -/
def c7Prefix : Py.Bytes :=
  [35, 35, 1, 5, 0, 25] ++ List.replicate 16 0 ++ [0, 0, 0, 7] ++ [0, 0] ++
    [1, 0, 1, 1, 0, 0, 0, 42, 1, 2, 3, 4, 5, 6, 7, 8, 24, 9, 12, 14, 23, 10, 1]

/-- A 53-byte frame with a valid `_verify_crc` and a 25-byte body. -/
def c7Packet : Py.Bytes := c7Prefix ++ Py.pack16 (ISUP.crc16 c7Prefix)

/-- The access event the strict parser derives from `c5Packet`
(`verify_result` 86 is the high CRC byte, which lands on body offset 24). -/
def c5Event : ISUP.ISUPAccessEvent :=
  { header := ⟨1, 5, 26, "", 7, 0⟩
    card_number := "0102030405060708"
    access_type := .CARD
    direction := .IN
    timestamp := .valid 2024 9 12 14 23 10
    door_number := 1
    reader_number := 1
    user_id := "42"
    verify_result := 86
    raw_packet := c5Packet }

/-- An upstream that answers 503 on the first POST and 200 afterwards. -/
def http503then200 : Nat → Core.HttpOutcome :=
  fun n => if n = 0 then .status 503 else .status 200

/-- A tenant with a configured upstream. -/
def tenantA : Core.Tenant :=
  ⟨"alpha", some "http://upstream.example/api", some "token"⟩

/-- A tenant manager binding one MAC to `tenantA`. -/
def tmA : Core.TenantManager :=
  ⟨[("alpha", tenantA)], [("AA:BB:CC:DD:EE:01", "alpha")]⟩

/-- An event from that MAC. -/
def evA : Core.Ev := { mac_address := some "AA:BB:CC:DD:EE:01" }

/-- A tenant manager with no tenants and no device bindings. -/
def tmEmpty : Core.TenantManager := ⟨[], []⟩

/-- A non-multipart, non-XML-typed request whose body is nevertheless
well-formed XML (`<a/>` has no `</` sequence, so `_looks_like_xml` says
no). -/
def c8req : Webhook.Request :=
  { remote := some "203.0.113.5"
    content_type := Webhook.lit "text/plain"
    secret_header := none
    body := Webhook.lit "<a/>" }

/-- A cached XML payload. -/
def c9xml : Webhook.BStr :=
  Webhook.lit "<EventNotificationAlert></EventNotificationAlert>"

/-- A multipart body with a single image part and no XML anywhere. -/
def c9body : Webhook.BStr :=
  Webhook.lit "--B\r\ncontent-type: image/jpeg\r\n\r\nJPEGDATA\r\n--B--"

/-- The image-only multipart request from 192.0.2.10. -/
def c9req : Webhook.Request :=
  { remote := some "192.0.2.10"
    content_type := Webhook.lit "multipart/form-data; boundary=B"
    secret_header := none
    body := c9body }

/-- Correlation cache holding `c9xml` for 192.0.2.10, stamped at time 0. -/
def c9cache : Webhook.Cache := [("192.0.2.10", ⟨c9xml, 0⟩)]

/-- The images the classification loop collects from `c9body`. -/
def c9imgs : Webhook.Images := [(Webhook.lit "blob.bin", Webhook.lit "JPEGDATA")]

/-!
## Helper lemmas
-/

namespace ISUP

open Py

/-- `_parse_header` succeeds exactly on a `"##"` marker plus at least 28
bytes, and then reads the documented big-endian fields. -/
theorem parse_header_eq (d : Bytes) :
    parse_header d =
      if sliceB d 0 2 = [35, 35] ∧ 28 ≤ d.length then
        some ⟨d.getD 2 0, d.getD 3 0, unpackBE (sliceB d 4 6),
          stripNul (decodeAsciiIgnore (sliceB d 6 22)),
          unpackBE (sliceB d 22 26), unpackBE (sliceB d 26 28)⟩
      else none := by
  unfold parse_header parse_headerE
  by_cases hm : sliceB d 0 2 = [35, 35]
  · by_cases hl : 28 ≤ d.length
    · have h2 : 2 < d.length := by omega
      have h3 : 3 < d.length := by omega
      have l46 : (sliceB d 4 6).length = 2 := by
        simp [sliceB]; omega
      have l2226 : (sliceB d 22 26).length = 4 := by
        simp [sliceB]; omega
      have l2628 : (sliceB d 26 28).length = 2 := by
        simp [sliceB]; omega
      simp [idxE, unpack16E, unpack32E, h2, h3, l46, l2226, l2628, hm, hl]
    · have hlt : d.length < 28 := by omega
      have l2628 : (sliceB d 26 28).length ≠ 2 := by
        simp [sliceB]
        have h2 : 2 ≤ d.length := by
          by_contra hc
          have : sliceB d 0 2 = d := by
            simp only [sliceB, List.drop_zero]
            exact List.take_of_length_le (by omega)
          rw [this] at hm
          rcases d with _ | ⟨a, _ | ⟨b, t⟩⟩ <;> simp_all
        omega
      have hc : unpack16E (sliceB d 26 28) = .error .structError := by
        simp [unpack16E, l2628]
      rcases e2 : idxE d 2 with v | v <;>
        rcases e3 : idxE d 3 with w | w <;>
          rcases e4 : unpack16E (sliceB d 4 6) with x | x <;>
            rcases e5 : unpack32E (sliceB d 22 26) with y | y <;>
              simp [hm, hl, hc, e2, e3, e4, e5]
  · simp [hm]

/-- `_verify_crc` cannot raise on inputs of at least two bytes. -/
theorem verify_crcE_eq (data : Bytes) (h : 2 ≤ data.length) :
    verify_crcE data = .ok (verify_crc data) := by
  have hlen : (data.drop (data.length - 2)).length = 2 := by
    simp; omega
  simp [verify_crcE, unpack16E, hlen, verify_crc]

end ISUP

namespace Webhook

/-- `_process_event` replies 200 when the XML parses (whatever the
processor does) and 400 otherwise, recording exactly one attempt. -/
theorem process_event_eq (po : BStr → Bool) (pr : BStr → Option Bool)
    (xml : BStr) (images : Option Images) :
    process_event po pr xml images =
      ⟨if po xml then 200 else 400, [(xml, images)]⟩ := by
  cases hpo : po xml <;> cases hpr : pr xml <;>
    simp [process_event, hpo, hpr]

/-- Status discipline of `_handle_multipart_bytes`: it replies 200 or
400, and 400 exactly when it attempted to process an XML payload whose
parse failed. -/
theorem handle_multipart_status (h : Handler) (cache : Cache)
    (po : BStr → Bool) (pr : BStr → Option Bool) (body boundary : BStr)
    (client_ip : String) (now : Nat) :
    ((handle_multipart_bytes h cache po pr body boundary client_ip now).1.status = 400 ↔
      ∃ x oi,
        (handle_multipart_bytes h cache po pr body boundary client_ip now).1.attempts =
          [(x, oi)] ∧ po x = false) ∧
    ((handle_multipart_bytes h cache po pr body boundary client_ip now).1.status = 200 ∨
      (handle_multipart_bytes h cache po pr body boundary client_ip now).1.status = 400) := by
  unfold handle_multipart_bytes
  by_cases hb : boundary = []
  · simp only [hb, if_pos rfl]
    rcases hx : (if looks_like_xml body then extract_xml_from_raw_body body else none) with _ | x
    · simp
    · simp only [process_event_eq]
      cases hpo : po x <;> simp [hpo]
  · simp only [if_neg hb]
    by_cases hp : robust_parse_multipart_formdata body boundary = []
    · simp [hp]
    · simp only [if_neg hp]
      rcases hxd : (match (classify_parts (robust_parse_multipart_formdata body boundary)).1 with
        | some x => some x
        | none => extract_xml_from_raw_body body) with _ | x
      · simp only [hxd]
        by_cases himg : (classify_parts (robust_parse_multipart_formdata body boundary)).2 ≠ []
        · rw [if_pos himg]
          rcases hg : cache_get cache client_ip now h.cache_ttl_seconds with ⟨o, c'⟩
          rcases o with _ | last
          · simp [hg]
          · simp only [hg, process_event_eq]
            cases hpo : po last <;> simp [hpo]
        · simp only [if_neg himg]
          simp
      · simp only [hxd, process_event_eq]
        cases hpo : po x <;> simp [hpo]

end Webhook

/-!
## Claims
-/

set_option maxRecDepth 40000

/-- C10: the ISUP `parse` entry point is total.  `parseE` tracks every
operation of `ISUPv5Parser.parse` that can raise (header unpacking and
the bare `struct.unpack` inside `_verify_crc` included); it always
returns `.ok` of the value the exception-free `parse` computes, so every
byte string yields either a parsed access event or a not-present result
and no exception escapes. -/
theorem c10_isup_parse_total (strict : Bool) (packet : Py.Bytes) :
    ISUP.parseE strict packet = .ok (ISUP.parse strict packet) := by
  unfold ISUP.parseE ISUP.parse
  by_cases hl : packet.length < 28
  · simp [hl]
  · have h2 : 2 ≤ packet.length := by omega
    rcases hh : ISUP.parse_header packet with _ | hdr
    · simp [hl, hh]
    · simp only [hl, hh, ISUP.verify_crcE_eq packet h2, if_false]
      split <;> rfl

/-- C5 counterexample: `c5Packet` carries its code-CRC in the final two
body bytes while its header checksum field (offsets 26-27) is zero, so
the CRC described by the claim mismatches the stored field — yet the
strict parser still returns an event: the code checks
`crc16(data[:-2]) == data[-2:]`, not the claimed fields. -/
theorem c5_counterexample :
    specCrcOk c5Packet = false ∧ (ISUP.parse true c5Packet).isSome = true := by
  decide

/-- C5 (amended): the CRC-16/IBM is computed over all bytes except the
LAST TWO of the packet and compared with those final two bytes read as a
big-endian u16 (this coincides with the header checksum field only for
empty-body frames); in strict mode a mismatch makes parse return a
not-present result, and in tolerant mode parsing proceeds regardless of
the comparison. -/
theorem c5_crc_check_amended (packet : Py.Bytes) (h : 28 ≤ packet.length) :
    (ISUP.verify_crc packet = false → ISUP.parse true packet = none) ∧
    ISUP.parse false packet =
      (match ISUP.parse_header packet with
       | none => none
       | some hdr =>
           ISUP.parse_access_event hdr
             (Py.sliceB packet 28 (28 + hdr.data_length)) packet) := by
  constructor
  · intro hv
    unfold ISUP.parse
    rcases hh : ISUP.parse_header packet with _ | hdr <;>
      simp [Nat.not_lt.mpr h, hh, hv]
  · unfold ISUP.parse
    rcases hh : ISUP.parse_header packet with _ | hdr <;>
      simp [Nat.not_lt.mpr h, hh]

/-- C5 witness: the strict parser rejects `c5BadPacket`, whose final two
bytes do not match the CRC of the rest. -/
theorem c5_crc_check_amended_witness : ISUP.parse true c5BadPacket = none :=
  (c5_crc_check_amended c5BadPacket (by decide)).1 (by decide)

/-- C6 counterexample: parsing the heartbeat ACK yields a not-present
result (for either strictness), not a command-0x20 frame: the ACK is 8
bytes and `parse` requires a 28-byte header. -/
theorem c6_counterexample :
    ISUP2.parse true ISUP2.make_heartbeat_ack = none ∧
    ISUP2.parse false ISUP2.make_heartbeat_ack = none := by decide

/-- C6 (amended): `make_heartbeat_ack` produces the 8-byte frame
`"##" | 0x01 | 0x20 | length=0 (BE) | CRC16(header) (BE)` — command byte
0x20 and length field 0 — but `parse` applied to it returns a
not-present result, because the frame is shorter than the 28-byte header
`parse` demands. -/
theorem c6_heartbeat_ack_amended :
    ISUP2.make_heartbeat_ack =
      [35, 35, 1, 32, 0, 0] ++ Py.pack16 (ISUP.crc16 [35, 35, 1, 32, 0, 0]) ∧
    ISUP2.make_heartbeat_ack.length = 8 ∧
    (∀ strict, ISUP2.parse strict ISUP2.make_heartbeat_ack = none) := by
  refine ⟨by decide, by decide, fun strict => ?_⟩
  cases strict <;> decide

/-- C4 counterexample: the ACK built for sequence 1 differs from the
claimed byte string — the length field the code writes is 2, not 6. -/
theorem c4_counterexample : ISUP2.make_ack 1 ≠ specAckBytes 1 := by decide

/-- C4 (amended): for every 32-bit sequence number, `make_ack` returns
exactly `"##" | 0x01 | 0x20 | length=2 (BE) | "OK" | seq (BE u32) |
CRC16(header|body) (BE)` — the CRC appended last and the sequence number
echoed verbatim; only the length field differs from the claim (2, the
length of `"OK"`, instead of the body length 6). -/
theorem c4_ack_bytes_amended (seq : Nat) (h : seq < 4294967296) :
    ISUP2.make_ack seq =
      [35, 35, 1, 32, 0, 2, 79, 75] ++ Py.pack32 seq ++
        Py.pack16 (ISUP.crc16 ([35, 35, 1, 32, 0, 2, 79, 75] ++ Py.pack32 seq)) := by
  unfold ISUP2.make_ack
  rw [if_pos h]
  norm_num [Py.pack16]

/-- C4 witness at sequence 1. -/
theorem c4_ack_bytes_amended_witness :
    ISUP2.make_ack 1 =
      [35, 35, 1, 32, 0, 2, 79, 75] ++ Py.pack32 1 ++
        Py.pack16 (ISUP.crc16 ([35, 35, 1, 32, 0, 2, 79, 75] ++ Py.pack32 1)) :=
  c4_ack_bytes_amended 1 (by norm_num)

/-- C7 counterexample: `c7Packet` passes marker and CRC checks and has a
25-byte body in which every claimed field offset is decodable, yet both
parsers return a not-present result: the code demands at least 26 body
bytes (and never consults the command byte). -/
theorem c7_counterexample :
    (Py.sliceB c7Packet 28 (28 + 25)).length = 25 ∧
    ISUP.verify_crc c7Packet = true ∧
    ISUP.parse true c7Packet = none ∧
    ISUP2.parse true c7Packet = none := by decide

/-- C7 (amended): for every frame passing the marker and (strict-mode)
CRC checks, an access event is derived exactly when the body — the
`data_length`-byte slice after the header — is at least 26 bytes long,
irrespective of the command byte; the fields are then decoded at the
claimed offsets: verify mode at body[2], direction at body[3], user id
as u32 BE at body[4..8], card as the 8 bytes body[8..16], timestamp from
body[16..22], door at body[22], reader at body[23] and verify result at
body[24]. -/
theorem c7_access_event_amended (strict : Bool) (packet : Py.Bytes)
    (hdr : ISUP.ISUPHeader) (hh : ISUP.parse_header packet = some hdr)
    (hcrc : strict = false ∨ ISUP.verify_crc packet = true) :
    ISUP.parse strict packet =
      (if (Py.sliceB packet 28 (28 + hdr.data_length)).length < 26 then none
       else some
        { header := hdr
          card_number :=
            Py.hexUpper (Py.sliceB (Py.sliceB packet 28 (28 + hdr.data_length)) 8 16)
          access_type :=
            ISUP.map_access_type ((Py.sliceB packet 28 (28 + hdr.data_length)).getD 2 0)
          direction :=
            ISUP.map_direction ((Py.sliceB packet 28 (28 + hdr.data_length)).getD 3 0)
          timestamp :=
            ISUP.parse_timestamp (Py.sliceB (Py.sliceB packet 28 (28 + hdr.data_length)) 16 22)
          door_number := (Py.sliceB packet 28 (28 + hdr.data_length)).getD 22 0
          reader_number := (Py.sliceB packet 28 (28 + hdr.data_length)).getD 23 0
          user_id :=
            toString (Py.unpackBE (Py.sliceB (Py.sliceB packet 28 (28 + hdr.data_length)) 4 8))
          verify_result := (Py.sliceB packet 28 (28 + hdr.data_length)).getD 24 0
          raw_packet := packet }) := by
  have hlen : 28 ≤ packet.length := by
    by_contra hc
    rw [ISUP.parse_header_eq] at hh
    simp [hc] at hh
  unfold ISUP.parse
  rw [if_neg (by omega), hh]
  rcases hcrc with hs | hv
  · subst hs
    simp [ISUP.parse_access_event]
  · simp [hv, ISUP.parse_access_event]

/-- C7 witness: the amended statement applied to `c5Packet` (26-byte
body, so an event is produced). -/
theorem c7_access_event_amended_witness :
    ISUP.parse true c5Packet =
      (if (Py.sliceB c5Packet 28 (28 + 26)).length < 26 then none
       else some
        { header := ⟨1, 5, 26, "", 7, 0⟩
          card_number := Py.hexUpper (Py.sliceB (Py.sliceB c5Packet 28 (28 + 26)) 8 16)
          access_type := ISUP.map_access_type ((Py.sliceB c5Packet 28 (28 + 26)).getD 2 0)
          direction := ISUP.map_direction ((Py.sliceB c5Packet 28 (28 + 26)).getD 3 0)
          timestamp := ISUP.parse_timestamp (Py.sliceB (Py.sliceB c5Packet 28 (28 + 26)) 16 22)
          door_number := (Py.sliceB c5Packet 28 (28 + 26)).getD 22 0
          reader_number := (Py.sliceB c5Packet 28 (28 + 26)).getD 23 0
          user_id := toString (Py.unpackBE (Py.sliceB (Py.sliceB c5Packet 28 (28 + 26)) 4 8))
          verify_result := (Py.sliceB c5Packet 28 (28 + 26)).getD 24 0
          raw_packet := c5Packet }) :=
  c7_access_event_amended true c5Packet ⟨1, 5, 26, "", 7, 0⟩ (by decide)
    (Or.inr (by decide))

/-- C1 counterexample: on a transient 503 response the dispatcher makes
exactly one POST and returns failure, whereas the claimed contract
(retry up to 3 attempts on 5xx) succeeds on the second attempt. -/
theorem c1_counterexample :
    Core.send_to_1c tenantA http503then200 = (false, 1) ∧
    specDispatch http503then200 = true := by decide

/-- C1 (amended): the upstream dispatch performs exactly one POST per
call — no retry and no backoff: it returns ok iff that single response
has status 200, 201 or 204 (other 2xx codes included in neither), and
failure on any exception (network error, timeout) or any other status,
4xx and 5xx alike; on failure the caller appends the enriched event to
the pending store. -/
theorem c1_dispatch_amended :
    (∀ t http, Core.truthy t.api_url = true → (Core.send_to_1c t http).2 = 1) ∧
    (∀ t http c, Core.truthy t.api_url = true →
      http 0 = Core.HttpOutcome.status c →
      ((Core.send_to_1c t http).1 = true ↔ (c = 200 ∨ c = 201 ∨ c = 204))) ∧
    (∀ t http, http 0 = Core.HttpOutcome.exn →
      (Core.send_to_1c t http).1 = false) ∧
    (∀ tm store event client_ip now http t,
      Core.find_tenant_by_mac tm event.mac_address = some t →
      (Core.send_to_1c t http).1 = false →
      Core.process_isapi_event tm store event client_ip now http =
        (false, store ++ [Core.enrich_event t { event with
          event_source := some "ISAPI"
          client_ip := some client_ip
          timestamp := some (Core.normalize_ts event.timestamp now) }])) := by
  refine ⟨?_, ?_, ?_, ?_⟩
  · intro t http ht
    rcases h0 : http 0 with c | _ <;> simp [Core.send_to_1c, ht, h0]
  · intro t http c ht h0
    simp [Core.send_to_1c, ht, h0]
  · intro t http h0
    by_cases ht : Core.truthy t.api_url <;> simp [Core.send_to_1c, ht, h0]
  · intro tm store event client_ip now http t hft hsend
    unfold Core.process_isapi_event
    simp [hft, hsend]

/-- C1 witness: the amended statement at concrete inputs (`tenantA`,
`evA` bound to it through `tmA`, the 503-then-200 upstream, and an
always-raising upstream). -/
theorem c1_dispatch_amended_witness :
    (Core.send_to_1c tenantA http503then200).2 = 1 ∧
    ((Core.send_to_1c tenantA http503then200).1 = true ↔
      (503 = 200 ∨ 503 = 201 ∨ 503 = 204)) ∧
    (Core.send_to_1c tenantA (fun _ => Core.HttpOutcome.exn)).1 = false ∧
    Core.process_isapi_event tmA [] evA "10.0.0.9" "2026-02-03T04:05:06" http503then200 =
      (false, [] ++ [Core.enrich_event tenantA { evA with
        event_source := some "ISAPI"
        client_ip := some "10.0.0.9"
        timestamp := some (Core.normalize_ts evA.timestamp "2026-02-03T04:05:06") }]) :=
  ⟨c1_dispatch_amended.1 tenantA http503then200 (by decide),
   c1_dispatch_amended.2.1 tenantA http503then200 503 (by decide) rfl,
   c1_dispatch_amended.2.2.1 tenantA (fun _ => Core.HttpOutcome.exn) rfl,
   c1_dispatch_amended.2.2.2 tmA [] evA "10.0.0.9" "2026-02-03T04:05:06"
     http503then200 tenantA (by decide) (by decide)⟩

/-- C2: an ingested event whose device identifier resolves to no tenant
is dropped with a failure result and the pending store is left
untouched, in both the ISAPI and the ISUP pipeline; conversely the store
changes only when a tenant was resolved. -/
theorem c2_unrouted_events_dropped :
    (∀ tm store event client_ip now http,
      Core.find_tenant_by_mac tm event.mac_address = none →
      Core.process_isapi_event tm store event client_ip now http = (false, store)) ∧
    (∀ tm store event client_ip now http,
      (Core.process_isapi_event tm store event client_ip now http).2 ≠ store →
      ∃ t, Core.find_tenant_by_mac tm event.mac_address = some t) ∧
    (∀ tm store packet client_ip now http e,
      ISUP.parse true packet = some e →
      Core.find_tenant_by_mac tm (some e.header.device_id) = none →
      Core.process_isup_packet tm store packet client_ip now http = (false, store)) ∧
    (∀ tm store packet client_ip now http,
      (Core.process_isup_packet tm store packet client_ip now http).2 ≠ store →
      ∃ e t, ISUP.parse true packet = some e ∧
        Core.find_tenant_by_mac tm (some e.header.device_id) = some t) := by
  refine ⟨?_, ?_, ?_, ?_⟩
  · intro tm store event client_ip now http hft
    unfold Core.process_isapi_event
    simp [hft]
  · intro tm store event client_ip now http hne
    unfold Core.process_isapi_event at hne
    rcases hf : Core.find_tenant_by_mac tm event.mac_address with _ | t
    · simp [hf] at hne
    · exact ⟨t, rfl⟩
  · intro tm store packet client_ip now http e hp hft
    unfold Core.process_isup_packet
    simp [hp, Core.unify_isup_event] at hft ⊢
    simp [hft]
  · intro tm store packet client_ip now http hne
    unfold Core.process_isup_packet at hne
    rcases hp : ISUP.parse true packet with _ | e
    · simp [hp] at hne
    · rcases hf : Core.find_tenant_by_mac tm
        (some e.header.device_id) with _ | t
      · rw [hp] at hne
        simp [Core.unify_isup_event, hf] at hne
      · exact ⟨e, t, rfl, hf⟩

/-- C2 witness: an unknown MAC (empty tenant manager) is dropped on the
ISAPI path, and the ISUP frame `c5Packet` (whose all-NUL device id
resolves to nothing) is dropped on the ISUP path; in both cases the
store stays empty. -/
theorem c2_unrouted_events_dropped_witness :
    Core.process_isapi_event tmEmpty [] {} "198.51.100.7" "T0" http503then200 =
      (false, []) ∧
    Core.process_isup_packet tmEmpty [] c5Packet "198.51.100.7" "T0" http503then200 =
      (false, []) :=
  ⟨c2_unrouted_events_dropped.1 tmEmpty [] {} "198.51.100.7" "T0" http503then200 rfl,
   c2_unrouted_events_dropped.2.2.1 tmEmpty [] c5Packet "198.51.100.7" "T0"
     http503then200 c5Event (by decide) (by decide)⟩

/-- C3 counterexample: the trace of a concrete `save_pending` call
contains neither an fsync nor a rename onto the final path, so the
claimed temp-file/fsync/atomic-rename mechanism is absent. -/
theorem c3_counterexample :
    Storage.atomicSaveClaim
      (Storage.save_pending {} "9a1f" "2026-01-02T03:04:05").1 "9a1f.json" = false := by
  decide

/-- C3 (amended): `save_pending` writes the record — which does include
`saved_at` — directly to `<uuid>.json` with a single open-and-write (no
temp file, no fsync, no rename), and `save_event` likewise writes
directly to `pending_<tenant>_<epoch>.json` without adding `saved_at`; a
crash mid-write can therefore leave a truncated file. -/
theorem c3_save_direct_amended (event : Core.Ev) (uuid now tenant_id : String)
    (epoch : Nat) :
    Storage.save_pending event uuid now =
      ([Storage.FsOp.openTrunc (uuid ++ ".json"),
        Storage.FsOp.writeOut (uuid ++ ".json")], ⟨event, uuid, now⟩) ∧
    (Storage.save_pending event uuid now).1.any Storage.isFsync = false ∧
    (Storage.save_pending event uuid now).1.any Storage.isRename = false ∧
    (Storage.save_pending event uuid now).2.saved_at = now ∧
    Storage.save_event event tenant_id epoch =
      ([Storage.FsOp.openTrunc ("pending_" ++ tenant_id ++ "_" ++ toString epoch ++ ".json"),
        Storage.FsOp.writeOut ("pending_" ++ tenant_id ++ "_" ++ toString epoch ++ ".json")],
        event) :=
  ⟨rfl, rfl, rfl, rfl, rfl⟩

/-- C8 counterexample: a non-empty `text/plain` body `<a/>` — valid XML
(the real `ET.fromstring` accepts it; the parse oracle here always
succeeds) — is answered 400 ("unsupported content type") with no XML
parse attempt, because `<a/>` contains no `</`, so `_looks_like_xml`
rejects it; 400 is therefore not confined to XML parse failures. -/
theorem c8_counterexample :
    (Webhook.handle ⟨none, 30⟩ [] (fun _ => true) (fun _ => some true) c8req 0).1 =
      ⟨400, []⟩ := by decide

/-- C8 (amended): the response status is 401 exactly when a non-empty
shared secret is configured and the request's secret header differs;
otherwise 400 exactly when the body is non-blank and either the handler
attempted to parse an XML payload and the parse failed, or the request
is non-multipart with a content type not containing "xml" and a body not
recognized as XML; 200 in all other cases (and no other status occurs). -/
theorem c8_response_discipline (h : Webhook.Handler) (cache : Webhook.Cache)
    (po : Webhook.BStr → Bool) (pr : Webhook.BStr → Option Bool)
    (req : Webhook.Request) (now : Nat) :
    ((Webhook.handle h cache po pr req now).1.status = 401 ↔
      (Core.truthy h.secret_token = true ∧ req.secret_header ≠ h.secret_token)) ∧
    ((Webhook.handle h cache po pr req now).1.status = 400 ↔
      (¬(Core.truthy h.secret_token = true ∧ req.secret_header ≠ h.secret_token) ∧
        Webhook.stripWs req.body ≠ [] ∧
        ((∃ x oi, (Webhook.handle h cache po pr req now).1.attempts = [(x, oi)] ∧
            po x = false) ∨
          (Webhook.startsWithB (Webhook.parse_content_type_header req.content_type).1
              (Webhook.lit "multipart/") = false ∧
            Webhook.containsSub (Webhook.lit "xml")
              (Webhook.parse_content_type_header req.content_type).1 = false ∧
            Webhook.looks_like_xml req.body = false)))) ∧
    ((Webhook.handle h cache po pr req now).1.status = 200 ∨
      (Webhook.handle h cache po pr req now).1.status = 400 ∨
      (Webhook.handle h cache po pr req now).1.status = 401) := by
  by_cases hsec : Core.truthy h.secret_token = true ∧ req.secret_header ≠ h.secret_token
  · have hr : Webhook.handle h cache po pr req now = (⟨401, []⟩, cache) := by
      simp only [Webhook.handle]
      rw [if_pos hsec]
    rw [hr]
    simp [hsec]
  · by_cases hb : req.body = [] ∨ Webhook.stripWs req.body = []
    · have hr : Webhook.handle h cache po pr req now = (⟨200, []⟩, cache) := by
        simp only [Webhook.handle]
        rw [if_neg hsec, if_pos hb]
      have hsw : Webhook.stripWs req.body = [] := by
        rcases hb with h1 | h1
        · rw [h1]; rfl
        · exact h1
      rw [hr]
      simp [hsec, hsw]
    · have hsw : Webhook.stripWs req.body ≠ [] := fun hc => hb (Or.inr hc)
      by_cases hmp : Webhook.startsWithB
          (Webhook.parse_content_type_header req.content_type).1
          (Webhook.lit "multipart/") = true
      · have hr : Webhook.handle h cache po pr req now =
            Webhook.handle_multipart_bytes h cache po pr req.body
              (((Webhook.parse_content_type_header req.content_type).2.lookup
                (Webhook.lit "boundary")).getD [])
              (req.remote.getD "unknown") now := by
          simp only [Webhook.handle]
          rw [if_neg hsec, if_neg hb, if_pos hmp]
        obtain ⟨hiff, hst⟩ := Webhook.handle_multipart_status h cache po pr req.body
          (((Webhook.parse_content_type_header req.content_type).2.lookup
            (Webhook.lit "boundary")).getD [])
          (req.remote.getD "unknown") now
        rw [hr]
        refine ⟨⟨fun h401 => ?_, fun hc => absurd hc hsec⟩, ?_, ?_⟩
        · rcases hst with h200 | h400
          · rw [h200] at h401; exact absurd h401 (by norm_num)
          · rw [h400] at h401; exact absurd h401 (by norm_num)
        · rw [hiff]
          constructor
          · rintro ⟨x, oi, ha, hpo⟩
            exact ⟨hsec, hsw, Or.inl ⟨x, oi, ha, hpo⟩⟩
          · rintro ⟨-, -, hx | ⟨hmp', -, -⟩⟩
            · exact hx
            · rw [hmp] at hmp'; exact absurd hmp' (by norm_num)
        · rcases hst with h200 | h400
          · exact Or.inl h200
          · exact Or.inr (Or.inl h400)
      · by_cases hx : (Webhook.containsSub (Webhook.lit "xml")
            (Webhook.parse_content_type_header req.content_type).1 ||
            Webhook.looks_like_xml req.body) = true
        · have hr : Webhook.handle h cache po pr req now =
              (Webhook.process_event po pr (Webhook.stripWs req.body) none, cache) := by
            simp only [Webhook.handle]
            rw [if_neg hsec, if_neg hb, if_neg hmp, if_pos hx, if_neg hsw]
          have hx2 : ¬(Webhook.containsSub (Webhook.lit "xml")
              (Webhook.parse_content_type_header req.content_type).1 = false ∧
              Webhook.looks_like_xml req.body = false) := by
            rintro ⟨h1, h2⟩
            rw [h1, h2] at hx
            exact absurd hx (by norm_num)
          rw [hr, Webhook.process_event_eq]
          cases hpo : po (Webhook.stripWs req.body)
          · simp only [hpo, if_false]
            refine ⟨by simp [hsec], ?_, by simp⟩
            constructor
            · intro _
              exact ⟨hsec, hsw, Or.inl ⟨Webhook.stripWs req.body, none, rfl, hpo⟩⟩
            · intro _; rfl
          · simp only [hpo, if_true]
            refine ⟨by simp [hsec], ?_, by simp⟩
            constructor
            · intro hc; exact absurd hc (by norm_num)
            · rintro ⟨-, -, ⟨x, oi, ha, hpox⟩ | ⟨-, h1, h2⟩⟩
              · simp only [List.cons.injEq, Prod.mk.injEq] at ha
                rcases ha with ⟨⟨hx1, -⟩, -⟩
                rw [hx1] at hpo
                rw [hpo] at hpox
                exact absurd hpox (by norm_num)
              · exact absurd ⟨h1, h2⟩ hx2
        · have hr : Webhook.handle h cache po pr req now = (⟨400, []⟩, cache) := by
            simp only [Webhook.handle]
            rw [if_neg hsec, if_neg hb, if_neg hmp, if_neg hx]
          have hx' : Webhook.containsSub (Webhook.lit "xml")
              (Webhook.parse_content_type_header req.content_type).1 = false ∧
              Webhook.looks_like_xml req.body = false := by
            simp only [Bool.or_eq_true, not_or, Bool.not_eq_true] at hx
            exact hx
          have hmp2 : Webhook.startsWithB
              (Webhook.parse_content_type_header req.content_type).1
              (Webhook.lit "multipart/") = false := by
            simpa using hmp
          rw [hr]
          refine ⟨by simp [hsec], ?_, by simp⟩
          constructor
          · intro _
            exact ⟨hsec, hsw, Or.inr ⟨hmp2, hx'.1, hx'.2⟩⟩
          · intro _; rfl

/-- C9: for a multipart request (non-blank body, boundary present, past
the secret gate) whose parts yield images but no XML, and whose raw body
contains no extractable XML either: when the correlation cache holds an
XML from the same client address within the TTL, the handler hands that
cached XML together with the new images to `_process_event`; when the
cache lookup yields nothing (no entry, or entry older than the TTL), the
handler replies 200 without any dispatch. -/
theorem c9_image_only_correlation (h : Webhook.Handler) (cache : Webhook.Cache)
    (po : Webhook.BStr → Bool) (pr : Webhook.BStr → Option Bool)
    (req : Webhook.Request) (now : Nat) (boundary : Webhook.BStr)
    (images : Webhook.Images)
    (hsec : ¬(Core.truthy h.secret_token = true ∧ req.secret_header ≠ h.secret_token))
    (hbody : ¬(req.body = [] ∨ Webhook.stripWs req.body = []))
    (hmp : Webhook.startsWithB (Webhook.parse_content_type_header req.content_type).1
      (Webhook.lit "multipart/") = true)
    (hbnd : ((Webhook.parse_content_type_header req.content_type).2.lookup
      (Webhook.lit "boundary")).getD [] = boundary)
    (hbne : boundary ≠ [])
    (hcls : Webhook.classify_parts
      (Webhook.robust_parse_multipart_formdata req.body boundary) = (none, images))
    (himg : images ≠ [])
    (hraw : Webhook.extract_xml_from_raw_body req.body = none) :
    (∀ last c',
      Webhook.cache_get cache (req.remote.getD "unknown") now h.cache_ttl_seconds =
        (some last, c') →
      Webhook.handle h cache po pr req now =
        (Webhook.process_event po pr last (some images), c')) ∧
    (∀ c',
      Webhook.cache_get cache (req.remote.getD "unknown") now h.cache_ttl_seconds =
        (none, c') →
      Webhook.handle h cache po pr req now = (⟨200, []⟩, c')) := by
  have hparts : Webhook.robust_parse_multipart_formdata req.body boundary ≠ [] := by
    intro hc
    rw [hc] at hcls
    have : images = [] := by
      have := hcls
      simp [Webhook.classify_parts] at this
      exact this.symm ▸ rfl
    exact himg this
  have hrm : Webhook.handle h cache po pr req now =
      Webhook.handle_multipart_bytes h cache po pr req.body boundary
        (req.remote.getD "unknown") now := by
    simp only [Webhook.handle]
    rw [if_neg hsec, if_neg hbody, if_pos hmp, hbnd]
  have hmb : ∀ r, Webhook.cache_get cache (req.remote.getD "unknown") now
        h.cache_ttl_seconds = r →
      Webhook.handle_multipart_bytes h cache po pr req.body boundary
        (req.remote.getD "unknown") now =
        (match r with
         | (some last, c') => (Webhook.process_event po pr last (some images), c')
         | (none, c') => (⟨200, []⟩, c')) := by
    intro r hget
    unfold Webhook.handle_multipart_bytes
    rw [if_neg hbne, if_neg hparts, hcls]
    simp only [hraw, himg, if_pos rfl, hget]
    rcases r with ⟨o, c'⟩
    rcases o with _ | last <;> simp [himg]
  constructor
  · intro last c' hget
    rw [hrm, hmb (some last, c') hget]
  · intro c' hget
    rw [hrm, hmb (none, c') hget]

/-- C9 witness: the image-only multipart `c9req` with `c9xml` cached 10
seconds earlier (TTL 30) dispatches the cached XML with the collected
image attached. -/
theorem c9_image_only_correlation_witness :
    Webhook.handle ⟨none, 30⟩ c9cache (fun _ => true) (fun _ => some true) c9req 10 =
      (Webhook.process_event (fun _ => true) (fun _ => some true) c9xml (some c9imgs),
        c9cache) :=
  (c9_image_only_correlation ⟨none, 30⟩ c9cache (fun _ => true) (fun _ => some true)
    c9req 10 (Webhook.lit "B") c9imgs (by decide) (by decide) (by decide) (by decide)
    (by decide) (by decide) (by decide) (by decide)).1 c9xml c9cache (by decide)
